import Mathlib

/-!
Verification development for the QRail live QR-code detection session:
the camera scanner component (`QRScanner`) and the single-shot file-upload
modal (`QRFileUpload`).  The mutable refs of the component, React state and
outwardly observable effects (timer creation/clearing, camera-track stops,
error display, completion callbacks, recognition round trips) are embedded
shallowly as Lean functions on an explicit state record.
-/

namespace QRail

/-- One raw response of the remote recognition service as read by the
frontend: `success`, optional `assetId`, presence of the `asset` record,
optional `error` string. -/
structure ScanResponse where
  success : Bool
  assetId : Option String
  asset : Bool
  error : Option String
  deriving DecidableEq, Repr

/-- The result of one recognition round trip: either the parsed response or a
thrown error message (network failure, non-2xx status, ...). -/
abbrev ScanResult := Except String ScanResponse

/-- Outwardly observable effects of the scanner session: dispatching a
frame-scan round trip, clearing the interval timer, stopping the camera
stream tracks, displaying an error, invoking the completion
callback. -/
inductive Ev where
  | dispatch
  | clearTimer
  | stopTracks
  | setErr (msg : String)
  | callback (assetId : String)
  deriving DecidableEq, Repr

/-- Whether an event is a completion callback to the caller. -/
def isCallbackEv : Ev → Bool
  | Ev.callback _ => true
  | _ => false

/-- JavaScript truthiness of an optional string field: absent (`undefined` /
`null`) and the empty string are falsy, every other string is truthy. -/
def truthyStr : Option String → Bool
  | some s => !(s == "")
  | none => false

/-- Whether the character list starts with the given pattern. -/
def startsWithChars : List Char → List Char → Bool
  | [], _ => true
  | _ :: _, [] => false
  | p :: ps, c :: cs => p == c && startsWithChars ps cs

/-- Whether the pattern occurs somewhere in the character list. -/
def occursInChars (pat : List Char) : List Char → Bool
  | [] => startsWithChars pat []
  | c :: cs => startsWithChars pat (c :: cs) || occursInChars pat cs

/-- JavaScript `msg.includes(sub)`: whether `sub` occurs in `msg`. -/
def containsSubstr (msg sub : String) : Bool :=
  occursInChars sub.data msg.data

/-- JavaScript `o || d` on an optional string: the default is taken when the
field is absent or the empty string. -/
def jsOr (o : Option String) (d : String) : String :=
  match o with
  | some e => if e == "" then d else e
  | none => d

/-- The mutable state of one scanner session.  `isScanningRef`, `timerSet`
(`scanIntervalRef.current` non-null), `streamSet` (`streamRef.current`
non-null) and the React `scanning` / `error` states mirror the refs and
state of the component; `liveTimers` counts interval timers created and not yet
cleared, `liveStreams` counts camera streams acquired whose tracks were not
yet stopped, and `inFlight` counts recognition round trips dispatched and not
yet resolved. -/
structure ScanState where
  isScanningRef : Bool
  scanning : Bool
  timerSet : Bool
  streamSet : Bool
  liveTimers : Nat
  liveStreams : Nat
  inFlight : Nat
  error : Option String
  deriving DecidableEq, Repr

/-- The state of a freshly mounted scanner component: no refs set, nothing
live, no error. -/
def initState : ScanState :=
  { isScanningRef := false, scanning := false, timerSet := false
    streamSet := false, liveTimers := 0, liveStreams := 0
    inFlight := 0, error := none }

/-- The state of a session that is streaming: scanning flags set, one live
interval timer and one live camera stream, no round trip outstanding. -/
def streamingInit : ScanState :=
  { isScanningRef := true, scanning := true, timerSet := true
    streamSet := true, liveTimers := 1, liveStreams := 1
    inFlight := 0, error := none }

/-- `stopScanner` (teardown): sets `isScanningRef` to false, clears the
interval if one is set, stops the camera tracks if a stream is held, then
clears the React `scanning` flag.  Returns the new state and the observable
effects, in source order. -/
def stopScanner (s : ScanState) : ScanState × List Ev :=
  let s0 : ScanState := { s with isScanningRef := false }
  let p1 : ScanState × List Ev :=
    if s0.timerSet then
      ({ s0 with timerSet := false, liveTimers := s0.liveTimers - 1 }, [Ev.clearTimer])
    else (s0, [])
  let p2 : ScanState × List Ev :=
    if p1.1.streamSet then
      ({ p1.1 with streamSet := false, liveStreams := p1.1.liveStreams - 1 }, [Ev.stopTracks])
    else (p1.1, [])
  ({ p2.1 with scanning := false }, p1.2 ++ p2.2)

/-- The message `stopScanner`-via-"Asset not found" displays. -/
def unresolvedMsg : String := "QR code scanned but asset not found in database"

/-- The message displayed when a thrown round-trip error mentions 404. -/
def invalidQrMsg : String := "Invalid QR code: Asset not found"

/-- The continuation of `captureAndScanFrame` after
`await api.qr.scanFromFrame(imageData)` resolves, applied to whatever state
the session holds at resolution time.  On `success && assetId && asset`: set
`isScanningRef` false, clear the interval if set, stop the camera tracks if
held, clear `scanning`, then invoke the completion callback with the
`assetId`.  On `error === "Asset not found"`: display the distinct error and
run `stopScanner`.  On a thrown error whose message includes `404`: display
the invalid-QR error and run `stopScanner`.  Otherwise: continue scanning,
with no effect.  (The completion callback ref is modelled as installed, as it
is whenever a caller opened the scanner.) -/
def applyScanResult (s : ScanState) (res : ScanResult) : ScanState × List Ev :=
  let s : ScanState := { s with inFlight := s.inFlight - 1 }
  match res with
  | Except.ok r =>
    if r.success && truthyStr r.assetId && r.asset then
      let s1 : ScanState := { s with isScanningRef := false }
      let p2 : ScanState × List Ev :=
        if s1.timerSet then
          ({ s1 with timerSet := false, liveTimers := s1.liveTimers - 1 }, [Ev.clearTimer])
        else (s1, [])
      let p3 : ScanState × List Ev :=
        if p2.1.streamSet then
          ({ p2.1 with streamSet := false, liveStreams := p2.1.liveStreams - 1 }, [Ev.stopTracks])
        else (p2.1, [])
      ({ p3.1 with scanning := false }, p2.2 ++ p3.2 ++ [Ev.callback (r.assetId.getD "")])
    else if r.error == some "Asset not found" then
      let p := stopScanner { s with error := some unresolvedMsg }
      (p.1, Ev.setErr unresolvedMsg :: p.2)
    else (s, [])
  | Except.error msg =>
    if containsSubstr msg "404" then
      let p := stopScanner { s with error := some invalidQrMsg }
      (p.1, Ev.setErr invalidQrMsg :: p.2)
    else (s, [])

/-- One firing of the 200ms interval: the interval closure checks
`isScanningRef.current` and calls `captureAndScanFrame`, which re-checks
`isScanningRef` and that the video and canvas refs are present
(`refsReady`), then captures a frame and dispatches one recognition round
trip.  There is no check on the number of round trips already in flight. -/
def tick (refsReady : Bool) (s : ScanState) : ScanState × List Ev :=
  if s.isScanningRef && refsReady then
    ({ s with inFlight := s.inFlight + 1 }, [Ev.dispatch])
  else (s, [])

/-- Result of the camera acquisition (`getUserMedia`): granted, or rejected
with an error message (permission denied, device unavailable). -/
inductive AcquireResult where
  | granted
  | denied (msg : String)
  deriving DecidableEq, Repr

/-- Error message shown when camera acquisition fails. -/
def cameraErrMsg (msg : String) : String :=
  "Failed to start camera. Please check permissions and ensure camera is available. Error: " ++ msg

/-- `startScanner`: returns immediately if already scanning.  Otherwise
clears the error, sets the scanning flags, then awaits acquisition.  On
grant the stream ref is set and, when the video element is present
(`videoReady`), the scan interval is created.  On denial the error is
displayed, the scanning flags are reset and a stream ref, if set, is
released. -/
def startScanner (acq : AcquireResult) (videoReady : Bool) (s : ScanState) :
    ScanState × List Ev :=
  if s.isScanningRef then (s, [])
  else
    let s : ScanState := { s with error := none, scanning := true, isScanningRef := true }
    match acq with
    | AcquireResult.granted =>
      let s : ScanState := { s with streamSet := true, liveStreams := s.liveStreams + 1 }
      if videoReady then
        ({ s with timerSet := true, liveTimers := s.liveTimers + 1 }, [])
      else (s, [])
    | AcquireResult.denied msg =>
      let s : ScanState :=
        { s with error := some (cameraErrMsg msg), scanning := false, isScanningRef := false }
      if s.streamSet then
        ({ s with streamSet := false, liveStreams := s.liveStreams - 1 }, [Ev.stopTracks])
      else (s, [])

/-- A sequential run of the sampler: each tick fires with the video and
canvas refs present; when the tick dispatches a round trip, that round
trip result is applied before the next tick fires (backend faster than the
tick interval); when the tick dispatches nothing, no result exists and the
session is unchanged. -/
def runTicks (s : ScanState) : List ScanResult → ScanState × List Ev
  | [] => (s, [])
  | r :: rs =>
    if s.isScanningRef then
      let t := tick true s
      let a := applyScanResult t.1 r
      let rest := runTicks a.1 rs
      (rest.1, t.2 ++ a.2 ++ rest.2)
    else runTicks s rs

/-- `n` consecutive calls of `stopScanner`, accumulating states and effects. -/
def stopN : Nat → ScanState → ScanState × List Ev
  | 0, s => (s, [])
  | n + 1, s =>
    let p := stopScanner s
    let rest := stopN n p.1
    (rest.1, p.2 ++ rest.2)

/-- The session state refined with the suspension points inside
`startScanner`: `pendingAcq` counts `getUserMedia` promises dispatched and
not yet settled, `pendingReady` counts video elements playing and awaiting
readiness.  Other code can run at both awaits, so they are separate steps of
the machine. -/
structure AState where
  core : ScanState
  pendingAcq : Nat
  pendingReady : Nat
  deriving DecidableEq, Repr

/-- A freshly mounted component, nothing pending. -/
def initP : AState :=
  { core := initState, pendingAcq := 0, pendingReady := 0 }

/-- A streaming session with nothing pending. -/
def streamingP : AState :=
  { core := streamingInit, pendingAcq := 0, pendingReady := 0 }

/-- The synchronous prefix of `startScanner`, up to the `getUserMedia` await:
the re-entry guard reads `isScanningRef` at entry, and when it passes, the
error is cleared, the scanning flags are set and one camera acquisition is
dispatched.  Nothing else happens until that acquisition settles. -/
def startScannerCall (s : AState) : AState :=
  if s.core.isScanningRef then s
  else
    { s with
      core := { s.core with error := none, scanning := true, isScanningRef := true }
      pendingAcq := s.pendingAcq + 1 }

/-- The continuation of `startScanner` after one pending `getUserMedia`
settles; no flag is re-checked against a teardown or restart that ran during
the await.  On grant, the stream ref is overwritten with the new stream — a
stream it already referenced stays live, its tracks are never stopped — and
when the video element is present, playback starts and one video-ready await
is dispatched.  On denial, the camera error is shown, the scanning flags are
reset and the stream currently referenced, if any, is released. -/
def acqResolve (res : AcquireResult) (videoPresent : Bool) (s : AState) :
    AState × List Ev :=
  let s : AState := { s with pendingAcq := s.pendingAcq - 1 }
  match res with
  | AcquireResult.granted =>
    let core : ScanState :=
      { s.core with streamSet := true, liveStreams := s.core.liveStreams + 1 }
    if videoPresent then
      ({ s with core := core, pendingReady := s.pendingReady + 1 }, [])
    else ({ s with core := core }, [])
  | AcquireResult.denied msg =>
    let core : ScanState :=
      { s.core with
          error := some (cameraErrMsg msg)
          scanning := false
          isScanningRef := false }
    if core.streamSet then
      ({ s with
          core := { core with streamSet := false, liveStreams := core.liveStreams - 1 } },
        [Ev.stopTracks])
    else ({ s with core := core }, [])

/-- The continuation after one pending video-ready await settles: the scan
interval is created and its handle overwrites the interval ref — an interval
already referenced stays live, it is never cleared.  Nothing is re-checked. -/
def readyResolve (s : AState) : AState :=
  { s with
    pendingReady := s.pendingReady - 1
    core := { s.core with timerSet := true, liveTimers := s.core.liveTimers + 1 } }

/-- `stopScanner` on the refined state: it acts on the refs and cannot cancel
a pending acquisition or video-ready await. -/
def stopScannerA (s : AState) : AState × List Ev :=
  let p := stopScanner s.core
  ({ s with core := p.1 }, p.2)

/-- A sampler tick on the refined state. -/
def tickA (v : Bool) (s : AState) : AState × List Ev :=
  let p := tick v s.core
  ({ s with core := p.1 }, p.2)

/-- A round-trip resolution on the refined state. -/
def applyScanResultA (s : AState) (r : ScanResult) : AState × List Ev :=
  let p := applyScanResult s.core r
  ({ s with core := p.1 }, p.2)

/-- The session states reachable from a freshly mounted component by any
interleaving of `startScanner` calls, settlements of its pending awaits,
`stopScanner`, sampler ticks, and resolutions of outstanding recognition
round trips. -/
inductive ReachP : AState → Prop where
  | init : ReachP initP
  | start {s : AState} : ReachP s → ReachP (startScannerCall s)
  | acq {s : AState} (res : AcquireResult) (v : Bool) :
      1 ≤ s.pendingAcq → ReachP s → ReachP (acqResolve res v s).1
  | ready {s : AState} :
      1 ≤ s.pendingReady → ReachP s → ReachP (readyResolve s)
  | stop {s : AState} : ReachP s → ReachP (stopScannerA s).1
  | tickStep {s : AState} (v : Bool) : ReachP s → ReachP (tickA v s).1
  | resolve {s : AState} (r : ScanResult) :
      1 ≤ s.core.inFlight → ReachP s → ReachP (applyScanResultA s r).1

/-- The state reached by the interleaving: start (acquisition pending),
teardown, start again (two acquisitions pending, the guard saw the flag
already reset), both acquisitions granted, both video-ready awaits settled.
Each settlement overwrites the stream and interval refs, so the earlier
stream and interval stay live with no reference left to release them. -/
def leakedP : AState :=
  readyResolve (readyResolve
    (acqResolve AcquireResult.granted true
      (acqResolve AcquireResult.granted true
        (startScannerCall (stopScannerA (startScannerCall initP)).1)).1).1)

/-- A `NotFound` response: no QR code recognized in the frame. -/
def notFoundResp : ScanResponse :=
  { success := false, assetId := none, asset := false, error := none }

/-- A `Matched` response carrying `a`: recognized and resolved. -/
def matchedResp (a : String) : ScanResponse :=
  { success := true, assetId := some a, asset := true, error := none }

/-- An `AssetUnresolved` response: the service recognized the symbol but no
matching asset exists. -/
def unresolvedResp : ScanResponse :=
  { success := false, assetId := none, asset := false, error := some "Asset not found" }

/-- The state of a session stopped cleanly after streaming: everything
released, no error. -/
def stoppedClean : ScanState :=
  { isScanningRef := false, scanning := false, timerSet := false
    streamSet := false, liveTimers := 0, liveStreams := 0
    inFlight := 0, error := none }

/-- The state of the file-upload modal: the `uploading` and `error` React states
and the list of completion callbacks delivered. -/
structure UploadState where
  uploading : Bool
  error : String
  delivered : List String
  deriving DecidableEq, Repr

/-- A freshly opened upload modal. -/
def initUpload : UploadState :=
  { uploading := false, error := "", delivered := [] }

/-- `handleFileChange` of the upload modal: with no file selected it does
nothing; otherwise it sets `uploading`, clears the error, submits the image
through `api.qr.scanFromFile` (the deterministic `backend` function), and on
`success && assetId` delivers the completion callback, otherwise displays
`result.error` or, when that is falsy, a default message; a thrown error
displays its message; `uploading` is cleared in all cases. -/
def handleFileChange (backend : String → Except String ScanResponse)
    (file : Option String) (s : UploadState) : UploadState :=
  match file with
  | none => s
  | some img =>
    let s : UploadState := { s with uploading := true, error := "" }
    let s : UploadState :=
      match backend img with
      | Except.ok r =>
        if r.success && truthyStr r.assetId then
          { s with delivered := s.delivered ++ [r.assetId.getD ""] }
        else
          { s with error := jsOr r.error "Failed to read QR code from image" }
      | Except.error m => { s with error := "Error uploading file: " ++ m }
    { s with uploading := false }

theorem stopScanner_fix (s : ScanState) :
    stopScanner (stopScanner s).1 = ((stopScanner s).1, []) := by
  simp only [stopScanner]
  by_cases ht : s.timerSet <;> by_cases hs : s.streamSet <;> simp [ht, hs]

theorem stopScanner_fst_flags (s : ScanState) :
    (stopScanner s).1.isScanningRef = false ∧ (stopScanner s).1.timerSet = false ∧
    (stopScanner s).1.streamSet = false ∧ (stopScanner s).1.scanning = false := by
  simp only [stopScanner]
  by_cases ht : s.timerSet <;> by_cases hs : s.streamSet <;> simp [ht, hs]

theorem stopScanner_events_shape (s : ScanState) :
    (stopScanner s).2 = [] ∨ (stopScanner s).2 = [Ev.clearTimer] ∨
    (stopScanner s).2 = [Ev.stopTracks] ∨
    (stopScanner s).2 = [Ev.clearTimer, Ev.stopTracks] := by
  simp only [stopScanner]
  by_cases ht : s.timerSet <;> by_cases hs : s.streamSet <;> simp [ht, hs]

theorem runTicks_stopped (rs : List ScanResult) (s : ScanState)
    (h : s.isScanningRef = false) : runTicks s rs = (s, []) := by
  induction rs with
  | nil => rfl
  | cons r rs ih => simp [runTicks, h, ih]

theorem runTicks_cons (s : ScanState) (h : s.isScanningRef = true)
    (r : ScanResult) (rs : List ScanResult) :
    runTicks s (r :: rs) =
      ((runTicks (applyScanResult (tick true s).1 r).1 rs).1,
        (tick true s).2 ++ (applyScanResult (tick true s).1 r).2 ++
          (runTicks (applyScanResult (tick true s).1 r).1 rs).2) := by
  simp [runTicks, h]

theorem runTicks_notFound (rs : List ScanResult) :
    runTicks streamingInit (Except.ok notFoundResp :: rs) =
      ((runTicks streamingInit rs).1,
        Ev.dispatch :: (runTicks streamingInit rs).2) := by
  rw [runTicks_cons streamingInit rfl]
  have ht : tick true streamingInit =
      ({ streamingInit with inFlight := 1 }, [Ev.dispatch]) := rfl
  have ha : applyScanResult { streamingInit with inFlight := 1 }
      (Except.ok notFoundResp) = (streamingInit, []) := rfl
  rw [ht, ha]
  simp

theorem stopN_one_eq (m : Nat) : ∀ s : ScanState, stopN (m + 1) s = stopScanner s := by
  induction m with
  | zero =>
    intro s
    show ((stopN 0 (stopScanner s).1).1,
        (stopScanner s).2 ++ (stopN 0 (stopScanner s).1).2) = stopScanner s
    simp [stopN]
  | succ m ih =>
    intro s
    show ((stopN (m + 1) (stopScanner s).1).1,
        (stopScanner s).2 ++ (stopN (m + 1) (stopScanner s).1).2) = stopScanner s
    rw [ih ((stopScanner s).1), stopScanner_fix]
    simp

theorem countP_callback_replicate (n : Nat) :
    List.countP isCallbackEv (List.replicate n Ev.dispatch) = 0 := by
  induction n with
  | zero => rfl
  | succ n ih => simp [List.replicate_succ, List.countP_cons, isCallbackEv, ih]

theorem stopScanner_no_callback (s : ScanState) :
    ∀ e ∈ (stopScanner s).2, isCallbackEv e = false := by
  rcases stopScanner_events_shape s with h | h | h | h <;> rw [h] <;> decide

theorem runTicks_matched (a : String) (ha : (a == "") = false)
    (extra : List ScanResult) :
    runTicks streamingInit (Except.ok (matchedResp a) :: extra) =
      (stoppedClean, [Ev.dispatch, Ev.clearTimer, Ev.stopTracks, Ev.callback a]) := by
  rw [runTicks_cons streamingInit rfl]
  have ht : tick true streamingInit =
      ({ streamingInit with inFlight := 1 }, [Ev.dispatch]) := rfl
  have hap : applyScanResult { streamingInit with inFlight := 1 }
      (Except.ok (matchedResp a)) =
      (stoppedClean, [Ev.clearTimer, Ev.stopTracks, Ev.callback a]) := by
    simp [applyScanResult, matchedResp, truthyStr, ha, streamingInit, stoppedClean]
  rw [ht, hap, runTicks_stopped extra stoppedClean rfl]
  simp

/-- Claim C1 (code evaluation at the failing input): when the 200ms sampler
tick fires on a streaming session that already has one recognition round trip
outstanding, the code dispatches a second, overlapping round trip — the
in-flight count rises from 1 to 2 and a new dispatch effect is emitted; there
is no single-flight guard in the interval callback or in
`captureAndScanFrame`. -/
theorem tick_overlaps_inflight :
    tick true { streamingInit with inFlight := 1 } =
      ({ streamingInit with inFlight := 2 }, [Ev.dispatch]) := rfl

/-- Claim C2 (code evaluation at the failing input): `stopScanner` run while
one round trip is in flight does clear the interval and stop the camera
tracks synchronously, but when the outstanding round trip later resolves with
a successful match, the code still invokes the completion callback on the
already-stopped session instead of dropping the stale result. -/
theorem close_then_stale_match_callbacks :
    stopScanner { streamingInit with inFlight := 1 } =
      ({ stoppedClean with inFlight := 1 }, [Ev.clearTimer, Ev.stopTracks]) ∧
    applyScanResult { stoppedClean with inFlight := 1 }
        (Except.ok (matchedResp "A-100")) =
      (stoppedClean, [Ev.callback "A-100"]) := ⟨rfl, rfl⟩

/-- Claim C3: for a run of zero or more NotFound outcomes followed by one
Matched outcome carrying `a`, the session emits exactly one completion
callback, that callback carries `a`, the interval is cleared and the camera
tracks stopped before the callback fires, and no tick after the matched one
performs any work (any further ticks contribute no effects and leave the
stopped state unchanged). -/
theorem matched_delivers_exactly_once (n : Nat) (a : String)
    (ha : (a == "") = false) (extra : List ScanResult) :
    runTicks streamingInit
        (List.replicate n (Except.ok notFoundResp) ++
          Except.ok (matchedResp a) :: extra) =
      (stoppedClean,
        List.replicate n Ev.dispatch ++
          [Ev.dispatch, Ev.clearTimer, Ev.stopTracks, Ev.callback a]) ∧
    List.countP isCallbackEv
        (List.replicate n Ev.dispatch ++
          [Ev.dispatch, Ev.clearTimer, Ev.stopTracks, Ev.callback a]) = 1 := by
  constructor
  · induction n with
    | zero => simpa using runTicks_matched a ha extra
    | succ n ih =>
      rw [List.replicate_succ, List.cons_append, runTicks_notFound, ih]
      simp [List.replicate_succ]
  · rw [List.countP_append, countP_callback_replicate]
    simp [List.countP_cons, isCallbackEv]

/-- Witness for C3 at a concrete run: three NotFound ticks are impossible
here, so use two NotFound ticks, a match on asset A-100 and one further tick
that does nothing. -/
theorem matched_delivers_exactly_once_witness :
    ("A-100" == "") = false ∧
    (runTicks streamingInit
        (List.replicate 2 (Except.ok notFoundResp) ++
          Except.ok (matchedResp "A-100") :: [Except.ok notFoundResp]) =
      (stoppedClean,
        List.replicate 2 Ev.dispatch ++
          [Ev.dispatch, Ev.clearTimer, Ev.stopTracks, Ev.callback "A-100"]) ∧
    List.countP isCallbackEv
        (List.replicate 2 Ev.dispatch ++
          [Ev.dispatch, Ev.clearTimer, Ev.stopTracks, Ev.callback "A-100"]) = 1) :=
  ⟨rfl, matched_delivers_exactly_once 2 "A-100" rfl [Except.ok notFoundResp]⟩

/-- Claim C4: `stopScanner` is idempotent: for every session state, calling
it N (with 1 ≤ N) times in a row yields the same final state and the same
effect trace (in particular the same number of camera-track stops) as calling
it exactly once, and calling it again on an already-stopped session is a
no-op with no effects. -/
theorem close_idempotent (s : ScanState) (n : Nat) (h : 1 ≤ n) :
    stopN n s = stopScanner s ∧
    stopScanner (stopScanner s).1 = ((stopScanner s).1, []) := by
  obtain ⟨m, rfl⟩ : ∃ m, n = m + 1 := ⟨n - 1, (Nat.succ_pred_eq_of_pos h).symm⟩
  exact ⟨stopN_one_eq m s, stopScanner_fix s⟩

/-- Witness for C4: three consecutive closes of a streaming session equal one
close. -/
theorem close_idempotent_witness :
    stopN 3 streamingInit = stopScanner streamingInit ∧
    stopScanner (stopScanner streamingInit).1 =
      ((stopScanner streamingInit).1, []) :=
  close_idempotent streamingInit 3 (by decide)

/-- Claim C5 (code evaluation at the failing input): five consecutive
transient round-trip failures (rejections whose message does not mention 404)
leave the session streaming with no error — the code has no consecutive-
failure threshold and never escalates to a fatal ServiceUnavailable stop. -/
theorem five_transients_keep_scanning :
    runTicks streamingInit (List.replicate 5 (Except.error "Network error")) =
      (streamingInit, List.replicate 5 Ev.dispatch) ∧
    streamingInit.isScanningRef = true ∧ streamingInit.error = none :=
  ⟨rfl, rfl, rfl⟩

/-- Claim C6: on an AssetUnresolved outcome (response with
error = "Asset not found") the session stops, the interval is cleared and the
camera tracks stopped, and exactly one error is displayed, whose message is
distinct from anything a transient network failure produces — a transient
failure tick displays nothing and the session continues. -/
theorem unresolved_stops_distinct (extra : List ScanResult) :
    runTicks streamingInit (Except.ok unresolvedResp :: extra) =
      ({ stoppedClean with error := some unresolvedMsg },
        [Ev.dispatch, Ev.setErr unresolvedMsg, Ev.clearTimer, Ev.stopTracks]) ∧
    List.countP (fun e => e == Ev.setErr unresolvedMsg)
        [Ev.dispatch, Ev.setErr unresolvedMsg, Ev.clearTimer, Ev.stopTracks] = 1 ∧
    runTicks streamingInit [Except.error "network timeout"] =
      (streamingInit, [Ev.dispatch]) := by
  refine ⟨?_, rfl, rfl⟩
  rw [runTicks_cons streamingInit rfl]
  have ht : tick true streamingInit =
      ({ streamingInit with inFlight := 1 }, [Ev.dispatch]) := rfl
  have hap : applyScanResult { streamingInit with inFlight := 1 }
      (Except.ok unresolvedResp) =
      ({ stoppedClean with error := some unresolvedMsg },
        [Ev.setErr unresolvedMsg, Ev.clearTimer, Ev.stopTracks]) := rfl
  rw [ht, hap, runTicks_stopped extra _ rfl]
  simp

/-- Claim C7: when camera acquisition fails, the session never reaches
streaming: from a freshly mounted component, `startScanner` with a denied
acquisition ends with the scanning flags false, no interval timer created, no
stream held and only the camera error displayed — so no sampler tick can ever
be scheduled. -/
theorem acquisition_failure_never_streams (msg : String) (v : Bool) :
    startScanner (AcquireResult.denied msg) v initState =
      ({ initState with error := some (cameraErrMsg msg) }, []) ∧
    (startScanner (AcquireResult.denied msg) v initState).1.scanning = false ∧
    (startScanner (AcquireResult.denied msg) v initState).1.timerSet = false ∧
    (startScanner (AcquireResult.denied msg) v initState).1.streamSet = false :=
  ⟨rfl, rfl, rfl, rfl⟩

/-- Claim C8, counterexample to the claim as stated: a response with
success = true but no assetId and no asset record (and no error string)
leaves the session scanning with no effects — the code handles it as
NotFound (continue scanning), not as AssetUnresolved, which would stop the
session and display the distinct error. -/
theorem success_without_asset_keeps_scanning :
    applyScanResult { streamingInit with inFlight := 1 }
        (Except.ok { success := true, assetId := none, asset := false, error := none }) =
      (streamingInit, []) ∧
    streamingInit.isScanningRef = true := ⟨rfl, rfl⟩

/-- Claim C8 as amended: a response that does not satisfy
`success && assetId && asset` never produces a match callback; it is handled
as AssetUnresolved (session stops, distinct error displayed) exactly when its
error field equals "Asset not found", and otherwise the session continues
scanning unchanged with no effects. -/
theorem success_without_asset_no_match (s : ScanState) (r : ScanResponse)
    (h : (r.success && truthyStr r.assetId && r.asset) = false) :
    (∀ e ∈ (applyScanResult s (Except.ok r)).2, isCallbackEv e = false) ∧
    (r.error = some "Asset not found" →
      (applyScanResult s (Except.ok r)).1.isScanningRef = false ∧
      Ev.setErr unresolvedMsg ∈ (applyScanResult s (Except.ok r)).2) ∧
    (r.error ≠ some "Asset not found" →
      applyScanResult s (Except.ok r) =
        ({ s with inFlight := s.inFlight - 1 }, [])) := by
  by_cases he : r.error = some "Asset not found"
  · have hea : applyScanResult s (Except.ok r) =
        ((stopScanner { s with inFlight := s.inFlight - 1, error := some unresolvedMsg }).1,
          Ev.setErr unresolvedMsg ::
            (stopScanner { s with inFlight := s.inFlight - 1, error := some unresolvedMsg }).2) := by
      simp only [applyScanResult]
      rw [h]
      simp [he]
    refine ⟨?_, fun _ => ⟨?_, ?_⟩, fun hne => absurd he hne⟩
    · rw [hea]
      intro e hme
      rcases List.mem_cons.mp hme with rfl | hh
      · rfl
      · exact stopScanner_no_callback _ e hh
    · rw [hea]
      exact (stopScanner_fst_flags _).1
    · rw [hea]
      exact List.mem_cons_self _ _
  · have hbe : (r.error == some "Asset not found") = false := by
      simpa using he
    have hea : applyScanResult s (Except.ok r) =
        ({ s with inFlight := s.inFlight - 1 }, []) := by
      simp only [applyScanResult]
      rw [h]
      simp [hbe]
    refine ⟨?_, fun hc => absurd hc he, fun _ => hea⟩
    rw [hea]
    intro e hme
    simp at hme

/-- Witness for the amended C8: a success response with no assetId is left
untouched — the session keeps scanning and no callback or error is
delivered. -/
theorem success_without_asset_no_match_witness :
    applyScanResult streamingInit
        (Except.ok { success := true, assetId := none, asset := true, error := none }) =
      ({ streamingInit with inFlight := streamingInit.inFlight - 1 }, []) :=
  (success_without_asset_no_match streamingInit
    { success := true, assetId := none, asset := true, error := none } rfl).2.2
    (by simp)

/-- Claim C9: the file-upload adapter is deterministic as a two-run property:
two invocations of `handleFileChange` from a freshly opened modal, with the
same image and against the same deterministic backend, produce the same final
modal state — the same branch is taken, delivering the same assetId or
displaying the same error. -/
theorem fileUpload_deterministic (backend : String → Except String ScanResponse)
    (img img2 : String) (h : img = img2) :
    handleFileChange backend (some img) initUpload =
      handleFileChange backend (some img2) initUpload := by
  rw [h]

/-- Witness for C9 at a concrete image and backend response. -/
theorem fileUpload_deterministic_witness :
    "qr.png" = "qr.png" ∧
    handleFileChange (fun _ => Except.ok (matchedResp "A-1")) (some "qr.png") initUpload =
      handleFileChange (fun _ => Except.ok (matchedResp "A-1")) (some "qr.png") initUpload :=
  ⟨rfl, fileUpload_deterministic (fun _ => Except.ok (matchedResp "A-1"))
    "qr.png" "qr.png" rfl⟩

/-- Claim C10, counterexample to the claim as stated: the re-entry guard
reads the scanning ref only synchronously at entry and `startScanner`
re-checks nothing after its `getUserMedia` and video-ready awaits, so the
interleaving start, teardown during the pending acquisition, start again,
then both acquisitions and both video-ready awaits settling, reaches a real
session state holding two live camera streams and two live interval timers
— refuting that every reachable state holds at most one of each. -/
theorem overlapping_acquisitions_leak :
    ReachP leakedP ∧ leakedP.core.liveStreams = 2 ∧ leakedP.core.liveTimers = 2 := by
  have h1 : ReachP (startScannerCall initP) := ReachP.start ReachP.init
  have h2 : ReachP (stopScannerA (startScannerCall initP)).1 := ReachP.stop h1
  have h3 : ReachP (startScannerCall (stopScannerA (startScannerCall initP)).1) :=
    ReachP.start h2
  have h4 := ReachP.acq AcquireResult.granted true (by decide) h3
  have h5 := ReachP.acq AcquireResult.granted true (by decide) h4
  have h6 := ReachP.ready (by decide) h5
  have h7 := ReachP.ready (by decide) h6
  exact ⟨h7, rfl, rfl⟩

/-- Claim C10 as amended: `startScanner` is re-entry guarded at call time —
on any state whose scanning ref is set, a call returns before doing
anything: the state is unchanged, no camera acquisition is initiated and no
stream or timer handle is touched.  The guard is read only synchronously at
entry, so it does not bound the live handles across the acquisition and
video-ready awaits: teardown during a pending acquisition re-enables start,
and overlapping acquisitions overwrite the refs and leak streams and
timers. -/
theorem start_reentry_guard_call (s : AState) (h : s.core.isScanningRef = true) :
    startScannerCall s = s := by
  simp [startScannerCall, h]

/-- Witness for the amended C10: a second start call on a streaming session
with nothing pending is a no-op. -/
theorem start_reentry_guard_call_witness :
    startScannerCall streamingP = streamingP :=
  start_reentry_guard_call streamingP rfl

end QRail
